import Mathlib

/-!
Verification of the coverage-comparison core: the normalized data model,
the five format parsers (LCOV, Istanbul, Cobertura, Clover, JaCoCo), the
format detector and the comparator. Percentages are modelled as exact
rationals; counts as naturals. External libraries used by the code
(lcov-parse, JSON.parse, fast-xml-parser) are modelled by taking their
already-parsed output as the input of each parse function, mirroring the
TypeScript record types the code declares for that output.
-/

/-- The five coverage format identifiers (types.ts, CoverageFormat). -/
inductive CoverageFormat
  | lcov
  | istanbul
  | cobertura
  | clover
  | jacoco
deriving DecidableEq, Repr

/-- A covered/total/percentage triple (types.ts, CoverageMetric). -/
structure CoverageMetric where
  total : ℕ
  covered : ℕ
  percentage : ℚ
deriving DecidableEq, Repr

/-- The four aggregate metrics of a report (types.ts, CoverageSummary). -/
structure CoverageSummary where
  statements : CoverageMetric
  branches : CoverageMetric
  functions : CoverageMetric
  lines : CoverageMetric
deriving DecidableEq, Repr

/-- Per-file coverage: a path plus the four metrics (types.ts, FileCoverage). -/
structure FileCoverage where
  path : String
  statements : CoverageMetric
  branches : CoverageMetric
  functions : CoverageMetric
  lines : CoverageMetric
deriving DecidableEq, Repr

/-- Canonical parser output (types.ts, NormalizedCoverage). -/
structure NormalizedCoverage where
  format : CoverageFormat
  summary : CoverageSummary
  files : List FileCoverage
deriving DecidableEq, Repr

/-- Names of the four metric kinds, as used by compareMetric and the
aggregation helpers that index a FileCoverage by metric name. -/
inductive MetricName
  | statements
  | branches
  | functions
  | lines
deriving DecidableEq, Repr

/-- Field access by metric name, modelling the TypeScript `file[metric]`
indexed access in the aggregation helpers. -/
def FileCoverage.metric (f : FileCoverage) : MetricName → CoverageMetric
  | .statements => f.statements
  | .branches => f.branches
  | .functions => f.functions
  | .lines => f.lines

/-- The error taxonomy of the parsing layer. Each constructor stands for
one family of thrown Error messages in the source. -/
inductive ParseError
  | unrecognizedFormat
  | invalidFormat
  | emptyCoverageData
  | malformedInput
deriving DecidableEq, Repr

/-- Shared metric constructor: `{ total, covered, percentage: total > 0 ?
covered / total * 100 : 100 }`. Every parser holds an identical private
copy named calculateMetric (lcov.ts 68, cobertura 430, clover 352,
jacoco 232); Istanbul and the other construction sites inline the same
expression. -/
def calculateMetric (covered total : ℕ) : CoverageMetric :=
  { total := total
    covered := covered
    percentage := if 0 < total then (covered : ℚ) / total * 100 else 100 }

/-- Shared aggregation: sum total and covered over the files for one
metric kind, then apply the percentage rule. Identical private copies:
CoberturaParser.aggregateMetric, CloverParser.aggregateSummary,
JacocoParser.aggregateSummary, IstanbulParser sumMetrics. -/
def aggregateMetric (files : List FileCoverage) (m : MetricName) : CoverageMetric :=
  calculateMetric ((files.map fun f => (f.metric m).covered).sum)
    ((files.map fun f => (f.metric m).total).sum)

/-- Summary built by aggregating all four metric kinds from the files. -/
def aggregateSummary (files : List FileCoverage) : CoverageSummary :=
  { statements := aggregateMetric files .statements
    branches := aggregateMetric files .branches
    functions := aggregateMetric files .functions
    lines := aggregateMetric files .lines }

/-- The invariant claimed for every metric: when total is positive the
percentage is covered / total * 100, and when total is zero it is 100. -/
def MetricOk (m : CoverageMetric) : Prop :=
  (0 < m.total → m.percentage = (m.covered : ℚ) / m.total * 100) ∧
  (m.total = 0 → m.percentage = 100)

instance : DecidablePred MetricOk := fun m => by
  unfold MetricOk; infer_instance

/-- All four metrics of a file satisfy the invariant. -/
def FileOk (f : FileCoverage) : Prop :=
  MetricOk f.statements ∧ MetricOk f.branches ∧ MetricOk f.functions ∧ MetricOk f.lines

instance : DecidablePred FileOk := fun f => by
  unfold FileOk; infer_instance

/-- All four metrics of a summary satisfy the invariant. -/
def SummaryOk (s : CoverageSummary) : Prop :=
  MetricOk s.statements ∧ MetricOk s.branches ∧ MetricOk s.functions ∧ MetricOk s.lines

instance : DecidablePred SummaryOk := fun s => by
  unfold SummaryOk; infer_instance

/-- Every metric appearing in a parse result satisfies the invariant. -/
def CoverageOk (nc : NormalizedCoverage) : Prop :=
  SummaryOk nc.summary ∧ ∀ f ∈ nc.files, FileOk f

instance : DecidablePred CoverageOk := fun nc => by
  unfold CoverageOk; infer_instance

lemma metricOk_calculateMetric (covered total : ℕ) : MetricOk (calculateMetric covered total) := by
  refine ⟨fun h => ?_, fun h => ?_⟩
  · show (if 0 < total then (covered : ℚ) / total * 100 else 100) = (covered : ℚ) / total * 100
    rw [if_pos (show 0 < total from h)]
  · show (if 0 < total then (covered : ℚ) / total * 100 else 100) = 100
    have h0 : total = 0 := h
    rw [if_neg (by omega)]

lemma metricOk_default : MetricOk { total := 0, covered := 0, percentage := 100 } := by
  constructor
  · intro h
    exact absurd h (by decide)
  · intro _
    rfl

lemma metricOk_aggregateMetric (files : List FileCoverage) (m : MetricName) :
    MetricOk (aggregateMetric files m) :=
  metricOk_calculateMetric _ _

lemma summaryOk_aggregateSummary (files : List FileCoverage) :
    SummaryOk (aggregateSummary files) :=
  ⟨metricOk_calculateMetric _ _, metricOk_calculateMetric _ _,
   metricOk_calculateMetric _ _, metricOk_calculateMetric _ _⟩

/-- One found/hit pair of an lcov-parse record (lcov.ts, LcovFile fields
lines, functions, branches; the per-record detail arrays are not read by
the parser and are omitted). -/
structure LcovBlock where
  found : ℕ
  hit : ℕ
deriving DecidableEq, Repr

/-- One file record returned by the lcov-parse library (lcov.ts, LcovFile). -/
structure LcovFile where
  file : String
  lines : LcovBlock
  functions : LcovBlock
  branches : LcovBlock
deriving DecidableEq, Repr

/-- LcovParser.calculateSummary: sum found and hit across all files per
metric kind, then apply the shared percentage rule. LCOV does not
distinguish statements from lines, so both copy the line totals. -/
def LcovParser.calculateSummary (data : List LcovFile) : CoverageSummary :=
  let totalLines := (data.map fun f => f.lines.found).sum
  let coveredLines := (data.map fun f => f.lines.hit).sum
  let totalBranches := (data.map fun f => f.branches.found).sum
  let coveredBranches := (data.map fun f => f.branches.hit).sum
  let totalFunctions := (data.map fun f => f.functions.found).sum
  let coveredFunctions := (data.map fun f => f.functions.hit).sum
  { statements := calculateMetric coveredLines totalLines
    branches := calculateMetric coveredBranches totalBranches
    functions := calculateMetric coveredFunctions totalFunctions
    lines := calculateMetric coveredLines totalLines }

/-- LcovParser.parse over the output of the lcov-parse library. The
library error callback (malformed input) is outside the modelled core;
an empty record list is rejected as EmptyCoverageData. -/
def LcovParser.parse (data : List LcovFile) : Except ParseError NormalizedCoverage :=
  if data.length = 0 then .error .emptyCoverageData
  else .ok
    { format := .lcov
      summary := LcovParser.calculateSummary data
      files := data.map fun file =>
        { path := file.file
          statements := calculateMetric file.lines.hit file.lines.found
          branches := calculateMetric file.branches.hit file.branches.found
          functions := calculateMetric file.functions.hit file.functions.found
          lines := calculateMetric file.lines.hit file.lines.found } }

/-- A statement location; only the line span is read by the parser
(istanbul.ts, IstanbulLocation; the column fields are unused). -/
structure IstanbulLocation where
  startLine : ℕ
  endLine : ℕ
deriving DecidableEq, Repr

/-- A branch group; only locations.length is read (istanbul.ts,
IstanbulBranch; type and loc are unused). -/
structure IstanbulBranch where
  locations : List IstanbulLocation
deriving DecidableEq, Repr

/-- A function map entry; no field of it is read by the parser
(istanbul.ts, IstanbulFunction). -/
structure IstanbulFunction where
  name : String
deriving DecidableEq, Repr

/-- One per-file Istanbul record. JavaScript objects are modelled as
association lists in key insertion order; Object.keys, Object.values and
Object.entries are the first, second and full projections. An absent
field (the `|| \x7b\x7d` defaults in the code) is the empty list, and an
absent or empty path string is "". Hit counts are integers as read from
JSON. -/
structure IstanbulFileCoverage where
  path : String
  statementMap : List (String × IstanbulLocation)
  fnMap : List (String × IstanbulFunction)
  branchMap : List (String × IstanbulBranch)
  s : List (String × Int)
  f : List (String × Int)
  b : List (String × List Int)
deriving DecidableEq, Repr

/-- JavaScript string-or-default: `a || d` picks d when a is undefined or
empty (both modelled by ""). -/
def jsOrDefault (a d : String) : String :=
  if a = "" then d else a

/-- IstanbulParser.calculateStatements: total counts statementMap
entries, covered counts hit entries of s with value above zero. -/
def IstanbulParser.calculateStatements (file : IstanbulFileCoverage) : CoverageMetric :=
  calculateMetric ((file.s.map fun kv => kv.2).countP fun hit => decide (0 < hit))
    file.statementMap.length

/-- IstanbulParser.calculateBranches: total sums the outcome counts of
all branch groups, covered counts positive outcome hits across all
groups of b. -/
def IstanbulParser.calculateBranches (file : IstanbulFileCoverage) : CoverageMetric :=
  calculateMetric
    ((file.b.map fun kv => (kv.2.countP fun hit => decide (0 < hit))).sum)
    ((file.branchMap.map fun kv => kv.2.locations.length).sum)

/-- IstanbulParser.calculateFunctions: same pattern as statements using
fnMap and f. -/
def IstanbulParser.calculateFunctions (file : IstanbulFileCoverage) : CoverageMetric :=
  calculateMetric ((file.f.map fun kv => kv.2).countP fun hit => decide (0 < hit))
    file.fnMap.length

/-- The physical line numbers spanned by one statement location, from
startLine to endLine inclusive. -/
def IstanbulParser.linesSpanned (loc : IstanbulLocation) : List ℕ :=
  List.range' loc.startLine (loc.endLine + 1 - loc.startLine)

/-- IstanbulParser.calculateLines: build the set of line numbers spanned
by any statement and the subset spanned by a statement whose hit count
in s (looked up by key) is positive. -/
def IstanbulParser.calculateLines (file : IstanbulFileCoverage) : CoverageMetric :=
  let lineSet : Finset ℕ := file.statementMap.foldl
    (fun acc kv => acc ∪ (IstanbulParser.linesSpanned kv.2).toFinset) ∅
  let coveredLines : Finset ℕ := file.statementMap.foldl
    (fun acc kv =>
      if (match file.s.lookup kv.1 with
          | some hit => decide (0 < hit)
          | none => false) then
        acc ∪ (IstanbulParser.linesSpanned kv.2).toFinset
      else acc) ∅
  calculateMetric coveredLines.card lineSet.card

/-- IstanbulParser summary: aggregate totals over the already-built
per-file metrics (the private sumMetrics helper). -/
def IstanbulParser.calculateSummary (files : List FileCoverage) : CoverageSummary :=
  aggregateSummary files

/-- Translation of one per-file record into FileCoverage. -/
def IstanbulParser.buildFile (filePath : String) (file : IstanbulFileCoverage) : FileCoverage :=
  { path := jsOrDefault file.path filePath
    statements := IstanbulParser.calculateStatements file
    branches := IstanbulParser.calculateBranches file
    functions := IstanbulParser.calculateFunctions file
    lines := IstanbulParser.calculateLines file }

/-- IstanbulParser.parse over the JSON.parse output, a mapping from file
path to per-file record. The malformed JSON branch is outside the
modelled core; an empty mapping is rejected as EmptyCoverageData. -/
def IstanbulParser.parse (data : List (String × IstanbulFileCoverage)) :
    Except ParseError NormalizedCoverage :=
  if data.length = 0 then .error .emptyCoverageData
  else
    let files := data.map fun kv => IstanbulParser.buildFile kv.1 kv.2
    .ok
      { format := .istanbul
        summary := IstanbulParser.calculateSummary files
        files := files }

/-- One Cobertura line element. hits models parseInt of the hits
attribute (none for absent or non numeric, defaulted to 0 at use);
branch is whether the branch attribute equals "true"; conditionCoverage
is the (covered, total) pair extracted by the regex over the
condition-coverage attribute, none when the attribute is absent or the
regex does not match. -/
structure CoberturaLine where
  hits : Option ℕ
  branch : Bool
  conditionCoverage : Option (ℕ × ℕ)
deriving DecidableEq, Repr

/-- One Cobertura method element; only line-rate is read. none models an
absent or non numeric attribute (parseFloat yields NaN, defaulted to 0). -/
structure CoberturaMethod where
  lineRate : Option ℚ
deriving DecidableEq, Repr

/-- One Cobertura class element. The single-or-array XML shapes are
normalized to lists, an absent methods or lines container being the
empty list. -/
structure CoberturaClass where
  filename : String
  methods : List CoberturaMethod
  lines : List CoberturaLine
deriving DecidableEq, Repr

/-- One Cobertura package element; only its classes are read. -/
structure CoberturaPackage where
  classes : List CoberturaClass
deriving DecidableEq, Repr

/-- The root coverage element. Count attributes model parseInt of the
attribute with default "0"; rate attributes model parseFloat, none for
absent or non numeric (defaulted to 0 at use). -/
structure CoberturaCoverage where
  lineRate : Option ℚ
  branchRate : Option ℚ
  linesCovered : Option ℕ
  linesValid : Option ℕ
  branchesCovered : Option ℕ
  branchesValid : Option ℕ
  packages : List CoberturaPackage
deriving DecidableEq, Repr

/-- CoberturaParser.parseClass: statements and lines count line elements
and those with positive hits; functions count method elements and those
with positive line-rate; branches accumulate the regex pairs of lines
with branch="true". -/
def CoberturaParser.parseClass (cls : CoberturaClass) : FileCoverage :=
  let totalFunctions := cls.methods.length
  let coveredFunctions := cls.methods.countP fun m => decide (0 < m.lineRate.getD 0)
  let totalLines := cls.lines.length
  let coveredLines := cls.lines.countP fun l => decide (0 < l.hits.getD 0)
  let branchPairs := cls.lines.filterMap fun l =>
    if l.branch then l.conditionCoverage else none
  let totalBranches := (branchPairs.map fun p => p.2).sum
  let coveredBranches := (branchPairs.map fun p => p.1).sum
  { path := cls.filename
    statements := calculateMetric coveredLines totalLines
    branches := calculateMetric coveredBranches totalBranches
    functions := calculateMetric coveredFunctions totalFunctions
    lines := calculateMetric coveredLines totalLines }

/-- CoberturaParser.calculateSummary: when the parsed lines-valid count
is positive, statements, branches and lines are built from the root
attributes with percentages taken from line-rate and branch-rate, and
functions is aggregated from files; otherwise all four are aggregated
from files. -/
def CoberturaParser.calculateSummary (coverage : CoberturaCoverage)
    (files : List FileCoverage) : CoverageSummary :=
  let linesCovered := coverage.linesCovered.getD 0
  let linesValid := coverage.linesValid.getD 0
  let branchesCovered := coverage.branchesCovered.getD 0
  let branchesValid := coverage.branchesValid.getD 0
  if 0 < linesValid then
    let lineRate := coverage.lineRate.getD 0
    let branchRate := coverage.branchRate.getD 0
    { statements := { total := linesValid, covered := linesCovered, percentage := lineRate * 100 }
      branches :=
        { total := branchesValid, covered := branchesCovered, percentage := branchRate * 100 }
      functions := aggregateMetric files .functions
      lines := { total := linesValid, covered := linesCovered, percentage := lineRate * 100 } }
  else
    aggregateSummary files

/-- CoberturaParser.parse over the fast-xml-parser output; none models a
document without a root coverage element (InvalidFormat). -/
def CoberturaParser.parse (data : Option CoberturaCoverage) :
    Except ParseError NormalizedCoverage :=
  match data with
  | none => .error .invalidFormat
  | some coverage =>
    let files := coverage.packages.flatMap fun pkg =>
      pkg.classes.map CoberturaParser.parseClass
    .ok
      { format := .cobertura
        summary := CoberturaParser.calculateSummary coverage files
        files := files }

/-- The type attribute of a Clover line element (clover.ts, CloverLine). -/
inductive CloverLineType
  | stmt
  | cond
  | method
deriving DecidableEq, Repr

/-- One Clover line element; numeric attributes model parseInt with
none for absent (defaulted to 0 at use). -/
structure CloverLine where
  count : Option ℕ
  type : CloverLineType
  truecount : Option ℕ
  falsecount : Option ℕ
deriving DecidableEq, Repr

/-- An aggregate metrics element (clover.ts, CloverMetrics); only the six
statement, conditional and method attributes are read. -/
structure CloverMetrics where
  statements : Option ℕ
  coveredstatements : Option ℕ
  conditionals : Option ℕ
  coveredconditionals : Option ℕ
  methods : Option ℕ
  coveredmethods : Option ℕ
deriving DecidableEq, Repr

/-- One Clover file element. name and path model the attributes, an
absent or empty path falling back to name; line is the normalized list
of raw line elements. -/
structure CloverFile where
  name : String
  path : Option String
  metrics : Option CloverMetrics
  line : List CloverLine
deriving DecidableEq, Repr

/-- One Clover package element; only its files are read. -/
structure CloverPackage where
  file : List CloverFile
deriving DecidableEq, Repr

/-- A Clover project element. -/
structure CloverProject where
  metrics : Option CloverMetrics
  package : List CloverPackage
  file : List CloverFile
deriving DecidableEq, Repr

/-- The document root: either coverage/project or a bare project
(clover.ts, CloverXml). -/
structure CloverXml where
  coverageProject : Option CloverProject
  project : Option CloverProject
deriving DecidableEq, Repr

/-- CloverParser.parseMetrics: read the six aggregate attributes with
default 0 and apply the shared percentage rule; lines copies the
statement numbers. -/
def CloverParser.parseMetrics (metrics : CloverMetrics) : CoverageSummary :=
  let statements := metrics.statements.getD 0
  let coveredStatements := metrics.coveredstatements.getD 0
  let conditionals := metrics.conditionals.getD 0
  let coveredConditionals := metrics.coveredconditionals.getD 0
  let methods := metrics.methods.getD 0
  let coveredMethods := metrics.coveredmethods.getD 0
  { statements := calculateMetric coveredStatements statements
    branches := calculateMetric coveredConditionals conditionals
    functions := calculateMetric coveredMethods methods
    lines := calculateMetric coveredStatements statements }

/-- CloverParser.parseFile: prefer the metrics element of the file; fall
back to counting raw line elements, a cond line contributing two
outcomes to the branch total and one covered outcome per positive
truecount and falsecount. -/
def CloverParser.parseFile (file : CloverFile) : FileCoverage :=
  let filePath := jsOrDefault (file.path.getD "") file.name
  match file.metrics with
  | some metrics =>
    let cov := CloverParser.parseMetrics metrics
    { path := filePath
      statements := cov.statements
      branches := cov.branches
      functions := cov.functions
      lines := cov.lines }
  | none =>
    let stmtLines := file.line.filter fun l => decide (l.type = .stmt)
    let condLines := file.line.filter fun l => decide (l.type = .cond)
    let methodLines := file.line.filter fun l => decide (l.type = .method)
    let totalStatements := stmtLines.length
    let coveredStatements := stmtLines.countP fun l => decide (0 < l.count.getD 0)
    let totalBranches := 2 * condLines.length
    let coveredBranches := (condLines.map fun l =>
      (if 0 < l.truecount.getD 0 then 1 else 0) +
      (if 0 < l.falsecount.getD 0 then 1 else 0)).sum
    let totalMethods := methodLines.length
    let coveredMethods := methodLines.countP fun l => decide (0 < l.count.getD 0)
    { path := filePath
      statements := calculateMetric coveredStatements totalStatements
      branches := calculateMetric coveredBranches totalBranches
      functions := calculateMetric coveredMethods totalMethods
      lines := calculateMetric coveredStatements totalStatements }

/-- CloverParser.parse: resolve coverage/project or bare project, fail
with InvalidFormat when neither exists, collect files directly under the
project and then the files of each package, and build the summary from
the project metrics element when present. -/
def CloverParser.resolveProject (data : CloverXml) : Option CloverProject :=
  match data.coverageProject with
  | some p => some p
  | none => data.project

def CloverParser.parse (data : CloverXml) : Except ParseError NormalizedCoverage :=
  match CloverParser.resolveProject data with
  | none => .error .invalidFormat
  | some project =>
    let files := (project.file.map CloverParser.parseFile) ++
      (project.package.flatMap fun pkg => pkg.file.map CloverParser.parseFile)
    .ok
      { format := .clover
        summary := match project.metrics with
          | some m => CloverParser.parseMetrics m
          | none => aggregateSummary files
        files := files }

/-- The counter type attribute (jacoco.ts, JacocoCounter). -/
inductive JacocoCounterType
  | INSTRUCTION
  | BRANCH
  | LINE
  | COMPLEXITY
  | METHOD
  | CLASS
deriving DecidableEq, Repr

/-- One JaCoCo counter element; missed and covered model parseInt with
none for absent (defaulted to 0 at use). -/
structure JacocoCounter where
  type : JacocoCounterType
  missed : Option ℕ
  covered : Option ℕ
deriving DecidableEq, Repr

/-- One JaCoCo line element: missed/covered instructions and branches. -/
structure JacocoLine where
  mi : Option ℕ
  ci : Option ℕ
  mb : Option ℕ
  cb : Option ℕ
deriving DecidableEq, Repr

/-- One JaCoCo sourcefile element; counter none models an absent counter
child (the raw line fallback is then used). -/
structure JacocoSourceFile where
  name : String
  line : List JacocoLine
  counter : Option (List JacocoCounter)
deriving DecidableEq, Repr

/-- One JaCoCo package element. -/
structure JacocoPackage where
  name : String
  sourcefile : List JacocoSourceFile
deriving DecidableEq, Repr

/-- The JaCoCo report root. -/
structure JacocoReport where
  package : List JacocoPackage
  counter : Option (List JacocoCounter)
deriving DecidableEq, Repr

/-- Metric from one counter element: total is missed plus covered. -/
def JacocoParser.counterMetric (c : JacocoCounter) : CoverageMetric :=
  calculateMetric (c.covered.getD 0) (c.missed.getD 0 + c.covered.getD 0)

/-- Last counter of a given type; JavaScript object assignment lets a
later counter of the same type overwrite an earlier one. -/
def JacocoParser.findCounter (counters : List JacocoCounter) (t : JacocoCounterType) :
    Option JacocoCounter :=
  counters.reverse.find? fun c => decide (c.type = t)

/-- JacocoParser.parseCounters: INSTRUCTION feeds statements, BRANCH
branches, METHOD functions and LINE lines, each defaulting to a fully
covered empty metric when its counter is absent. -/
def JacocoParser.parseCounters (counters : List JacocoCounter) : CoverageSummary :=
  let pick := fun t => match JacocoParser.findCounter counters t with
    | some c => JacocoParser.counterMetric c
    | none => { total := 0, covered := 0, percentage := 100 }
  { statements := pick .INSTRUCTION
    branches := pick .BRANCH
    functions := pick .METHOD
    lines := pick .LINE }

/-- JacocoParser.parseSourceFile: use the counter children when present;
otherwise derive instructions, branches and lines from the raw line
elements, functions staying at the fully covered empty metric. -/
def JacocoParser.parseSourceFile (srcFile : JacocoSourceFile) (filePath : String) :
    FileCoverage :=
  match srcFile.counter with
  | some counters =>
    let cov := JacocoParser.parseCounters counters
    { path := filePath
      statements := cov.statements
      branches := cov.branches
      functions := cov.functions
      lines := cov.lines }
  | none =>
    let totalInstructions := (srcFile.line.map fun l => l.mi.getD 0 + l.ci.getD 0).sum
    let coveredInstructions := (srcFile.line.map fun l => l.ci.getD 0).sum
    let totalBranches := (srcFile.line.map fun l => l.mb.getD 0 + l.cb.getD 0).sum
    let coveredBranches := (srcFile.line.map fun l => l.cb.getD 0).sum
    let totalLines := srcFile.line.length
    let coveredLines := srcFile.line.countP fun l => decide (0 < l.ci.getD 0)
    { path := filePath
      statements := calculateMetric coveredInstructions totalInstructions
      branches := calculateMetric coveredBranches totalBranches
      functions := { total := 0, covered := 0, percentage := 100 }
      lines := calculateMetric coveredLines totalLines }

/-- JacocoParser.parse over the fast-xml-parser output; none models a
document without a report root (InvalidFormat). The path of each
sourcefile is the package name, a slash, and the sourcefile name. -/
def JacocoParser.parse (data : Option JacocoReport) : Except ParseError NormalizedCoverage :=
  match data with
  | none => .error .invalidFormat
  | some report =>
    let files := report.package.flatMap fun pkg =>
      pkg.sourcefile.map fun srcFile =>
        JacocoParser.parseSourceFile srcFile (pkg.name ++ "/" ++ srcFile.name)
    .ok
      { format := .jacoco
        summary := match report.counter with
          | some counters => JacocoParser.parseCounters counters
          | none => aggregateSummary files
        files := files }

/-- Three-way classification of a comparison (types.ts, ComparisonStatus). -/
inductive ComparisonStatus
  | improved
  | regressed
  | unchanged
deriving DecidableEq, Repr

/-- One metric comparison (types.ts, MetricComparison). -/
structure MetricComparison where
  metric : MetricName
  baseline : CoverageMetric
  current : CoverageMetric
  delta : ℚ
  status : ComparisonStatus
deriving DecidableEq, Repr

/-- One file comparison (types.ts, FileComparison). -/
structure FileComparison where
  path : String
  linesDelta : ℚ
  status : ComparisonStatus
deriving DecidableEq, Repr

/-- The full comparison result (types.ts, CoverageComparison). -/
structure CoverageComparison where
  metrics : List MetricComparison
  files : List FileComparison
  overallStatus : ComparisonStatus
  overallDelta : ℚ
deriving DecidableEq, Repr

/-- compare.ts compareMetric: delta is the percentage difference; a
positive delta is improved, a delta below the negated threshold is
regressed, anything else is unchanged. -/
def compareMetric (metric : MetricName) (baseline current : CoverageMetric)
    (threshold : ℚ) : MetricComparison :=
  let delta := current.percentage - baseline.percentage
  { metric := metric
    baseline := baseline
    current := current
    delta := delta
    status :=
      if 0 < delta then .improved
      else if delta < -threshold then .regressed
      else .unchanged }

/-- Lookup in the Map built from a file list keyed by path: the last
entry for a path wins, as with repeated Map.set. -/
def lookupFile (files : List FileCoverage) (p : String) : Option FileCoverage :=
  files.reverse.find? fun f => f.path == p

/-- Key list of that Map: paths in first-occurrence order, modelling Set
union of the baseline keys and the current keys, which keeps first
insertions and drops later duplicates. -/
def dedupFirst : List String → List String
  | [] => []
  | p :: rest => p :: (dedupFirst rest).filter fun q => q != p

/-- Ascending order on the lines delta, modelling the numeric sort
comparator of compareFiles. -/
abbrev FileComparison.deltaLE (a b : FileComparison) : Prop :=
  a.linesDelta ≤ b.linesDelta

instance : DecidableRel FileComparison.deltaLE :=
  fun a b => inferInstanceAs (Decidable (a.linesDelta ≤ b.linesDelta))

instance : IsTotal FileComparison FileComparison.deltaLE :=
  ⟨fun a b => le_total a.linesDelta b.linesDelta⟩

instance : IsTrans FileComparison FileComparison.deltaLE :=
  ⟨fun _ _ _ hab hbc => le_trans hab hbc⟩

/-- The body of the compareFiles loop for one path of the union: skip a
path missing on either side, drop a pair whose lines delta does not
exceed the 0.1 noise floor in absolute value, classify the rest with the
same three-way rule as metrics. -/
def compareFilesEntry (current baseline : NormalizedCoverage) (threshold : ℚ)
    (filePath : String) : Option FileComparison :=
  match lookupFile baseline.files filePath, lookupFile current.files filePath with
  | some baselineFile, some currentFile =>
    let linesDelta := currentFile.lines.percentage - baselineFile.lines.percentage
    if (0.1 : ℚ) < |linesDelta| then
      some
        { path := filePath
          linesDelta := linesDelta
          status :=
            if 0 < linesDelta then .improved
            else if linesDelta < -threshold then .regressed
            else .unchanged }
    else none
  | _, _ => none

/-- compare.ts compareFiles: iterate the union of the path sets with the
loop body above and sort ascending by delta. -/
def compareFiles (current baseline : NormalizedCoverage) (threshold : ℚ) :
    List FileComparison :=
  let allPaths := dedupFirst
    ((baseline.files.map fun f => f.path) ++ (current.files.map fun f => f.path))
  (allPaths.filterMap (compareFilesEntry current baseline threshold)).insertionSort
    FileComparison.deltaLE

/-- compare.ts calculateOverallDelta: the mean of the metric deltas,
zero for an empty list. -/
def calculateOverallDelta (metrics : List MetricComparison) : ℚ :=
  if metrics.length = 0 then 0
  else (metrics.map fun m => m.delta).sum / metrics.length

/-- compare.ts determineOverallStatus: any regressed metric dominates,
then any improved metric, else unchanged. -/
def determineOverallStatus (metrics : List MetricComparison)
    (threshold : ℚ) : ComparisonStatus :=
  if metrics.any fun m => decide (m.status = .regressed) then .regressed
  else if metrics.any fun m => decide (m.status = .improved) then .improved
  else .unchanged

/-- compare.ts compareCoverage: the four metric comparisons in fixed
order, the file comparisons, and the overall delta and status. -/
def compareCoverage (current baseline : NormalizedCoverage) (threshold : ℚ) :
    CoverageComparison :=
  let metrics : List MetricComparison :=
    [compareMetric .statements baseline.summary.statements current.summary.statements threshold,
     compareMetric .branches baseline.summary.branches current.summary.branches threshold,
     compareMetric .functions baseline.summary.functions current.summary.functions threshold,
     compareMetric .lines baseline.summary.lines current.summary.lines threshold]
  { metrics := metrics
    files := compareFiles current baseline threshold
    overallStatus := determineOverallStatus metrics threshold
    overallDelta := calculateOverallDelta metrics }

/-- Substring containment over character lists, modelling the JavaScript
String.includes used by the detector. -/
def listContainsSub (sub : List Char) : List Char → Bool
  | [] => sub.isEmpty
  | c :: rest => sub.isPrefixOf (c :: rest) || listContainsSub sub rest

/-- String containment: s contains sub. -/
def strContains (s sub : String) : Bool :=
  listContainsSub sub.data s.data

/-- Lower casing, modelling the JavaScript toLowerCase on filenames. -/
def strToLower (s : String) : String :=
  String.mk (s.data.map Char.toLower)

/-- Suffix test, modelling the JavaScript endsWith on filenames. -/
def strEndsWith (s suffix : String) : Bool :=
  suffix.data.isSuffixOf s.data

/-- Prefix test, modelling the JavaScript startsWith. -/
def strStartsWith (s p : String) : Bool :=
  p.data.isPrefixOf s.data

/-- Whitespace trim at both ends, modelling the JavaScript trim. -/
def strTrim (s : String) : String :=
  String.mk (((s.data.dropWhile Char.isWhitespace).reverse.dropWhile
    Char.isWhitespace).reverse)

/-- The JSON.parse result shape needed by the detector; field and element
values beyond structure are irrelevant to it. -/
inductive JsonVal
  | obj (fields : List (String × JsonVal))
  | arr (elems : List JsonVal)
  | str (s : String)
  | num (q : ℚ)
  | bool (b : Bool)
  | null
deriving Repr

/-- Object.keys of a JSON.parse result: field names for an object, index
strings for an array or a string, empty for numbers and booleans, and
none for null, on which Object.keys throws inside the guarded block. -/
def jsonKeys : JsonVal → Option (List String)
  | .obj fields => some (fields.map fun f => f.1)
  | .arr elems => some ((List.range elems.length).map fun i => toString i)
  | .str s => some ((List.range s.length).map fun i => toString i)
  | .num _ => some []
  | .bool _ => some []
  | .null => none

/-- The value at the first key: first field value of an object, first
element of an array, first character of a string. -/
def jsonFirstValue : JsonVal → Option JsonVal
  | .obj fields => fields.head?.map fun f => f.2
  | .arr elems => elems.head?
  | .str s => s.data.head?.map fun c => .str (String.mk [c])
  | _ => none

/-- JavaScript truthiness of a JSON.parse result. -/
def jsonTruthy : JsonVal → Bool
  | .null => false
  | .bool b => b
  | .num q => decide (q ≠ 0)
  | .str s => decide (s ≠ "")
  | _ => true

/-- typeof v === "object" for a JSON.parse result. -/
def jsonTypeofObject : JsonVal → Bool
  | .obj _ => true
  | .arr _ => true
  | .null => true
  | _ => false

/-- The in operator for the two probed keys: own fields of an object;
arrays and primitives carry neither statementMap nor s. -/
def jsonHasKey (k : String) : JsonVal → Bool
  | .obj fields => fields.any fun f => f.1 == k
  | _ => false

/-- Input of the detector: content text, filename, and the outcome of
JSON.parse on the content (none when parsing throws). -/
structure DetectInput where
  content : String
  filename : String
  json : Option JsonVal

/-- Rule 1: filename extension .info or .lcov. -/
def lcovExtRule (i : DetectInput) : Bool :=
  strEndsWith (strToLower i.filename) ".info" || strEndsWith (strToLower i.filename) ".lcov"

/-- The guarded Istanbul probe of rule 2: the value parses, its key list
is nonempty, and the first value is a truthy object with a statementMap
or s key. A JSON.parse or Object.keys throw is caught and yields false. -/
def istanbulJsonProbe (json : Option JsonVal) : Bool :=
  match json with
  | none => false
  | some v =>
    match jsonKeys v with
    | none => false
    | some keys =>
      if 0 < keys.length then
        match jsonFirstValue v with
        | some firstValue =>
          jsonTruthy firstValue && jsonTypeofObject firstValue &&
            (jsonHasKey "statementMap" firstValue || jsonHasKey "s" firstValue)
        | none => false
      else false

/-- Rule 2: filename extension .json and a successful Istanbul probe. -/
def istanbulJsonRule (i : DetectInput) : Bool :=
  strEndsWith (strToLower i.filename) ".json" && istanbulJsonProbe i.json

/-- The XML gate: content contains an xml declaration or starts, after
trimming, with an angle bracket. -/
def xmlLikeRule (i : DetectInput) : Bool :=
  strContains i.content "<?xml" || strStartsWith (strTrim i.content) "<"

/-- Rule 3a content test for Cobertura. -/
def coberturaContentRule (i : DetectInput) : Bool :=
  strContains i.content "<coverage" && strContains i.content "line-rate"

/-- Rule 3b content test for Clover. -/
def cloverContentRule (i : DetectInput) : Bool :=
  (strContains i.content "<coverage" && strContains i.content "clover") ||
    strContains i.content "<project"

/-- Rule 3c content test for JaCoCo. -/
def jacocoContentRule (i : DetectInput) : Bool :=
  strContains i.content "<report" && strContains i.content "<counter"

/-- Rule 4: generic LCOV text markers. -/
def lcovMarkersRule (i : DetectInput) : Bool :=
  strContains i.content "SF:" && (strContains i.content "LF:" || strContains i.content "DA:")

/-- parsers/index.ts detectFormat, flattened. The three XML tests only
run behind the XML gate; when the gate holds but none of them match,
control falls through to the LCOV marker rule, exactly as the early
returns in the source leave the XML block without returning. -/
def detectFormat (i : DetectInput) : Except ParseError CoverageFormat :=
  if lcovExtRule i then .ok .lcov
  else if istanbulJsonRule i then .ok .istanbul
  else if xmlLikeRule i && coberturaContentRule i then .ok .cobertura
  else if xmlLikeRule i && cloverContentRule i then .ok .clover
  else if xmlLikeRule i && jacocoContentRule i then .ok .jacoco
  else if lcovMarkersRule i then .ok .lcov
  else .error .unrecognizedFormat

/-- C9: an LCOV input parsing to zero file records and an Istanbul input
whose top-level mapping has zero entries each fail with
EmptyCoverageData instead of returning a zero-metric success. -/
theorem empty_inputs_fail_emptyCoverageData :
    LcovParser.parse [] = .error .emptyCoverageData ∧
    IstanbulParser.parse [] = .error .emptyCoverageData :=
  ⟨rfl, rfl⟩

/-- C10: a JaCoCo sourcefile without counter children always gets the
functions metric total 0, covered 0, percentage 100, whatever its raw
line data says. -/
theorem jacoco_sourcefile_functions_default (srcFile : JacocoSourceFile) (filePath : String)
    (h : srcFile.counter = none) :
    (JacocoParser.parseSourceFile srcFile filePath).functions =
      { total := 0, covered := 0, percentage := 100 } := by
  unfold JacocoParser.parseSourceFile
  rw [h]

/-- A sourcefile with line data but no counter children. -/
def exJacocoSrcFile : JacocoSourceFile :=
  { name := "A.java"
    line := [{ mi := some 1, ci := some 2, mb := some 0, cb := some 1 }]
    counter := none }

/-- Witness for C10 at a concrete sourcefile. -/
theorem jacoco_sourcefile_functions_default_witness :
    (JacocoParser.parseSourceFile exJacocoSrcFile "p/A.java").functions =
      { total := 0, covered := 0, percentage := 100 } :=
  jacoco_sourcefile_functions_default exJacocoSrcFile "p/A.java" rfl

/-- C2: for thresholds in [0, 100], compareMetric sets delta to the
percentage difference, is improved exactly when the delta is positive,
regressed exactly when it is below the negated threshold, unchanged
otherwise; and the 80 versus 78 scenario is regressed at threshold 1 and
unchanged at threshold 3. -/
theorem compareMetric_status_rule (name : MetricName) (b c : CoverageMetric) (t : ℚ)
    (ht0 : 0 ≤ t) (ht1 : t ≤ 100) :
    (compareMetric name b c t).delta = c.percentage - b.percentage ∧
    ((compareMetric name b c t).status = .improved ↔ 0 < (compareMetric name b c t).delta) ∧
    ((compareMetric name b c t).status = .regressed ↔ (compareMetric name b c t).delta < -t) ∧
    ((compareMetric name b c t).status = .unchanged ↔
      ¬ 0 < (compareMetric name b c t).delta ∧ ¬ (compareMetric name b c t).delta < -t) ∧
    (compareMetric .lines { total := 100, covered := 80, percentage := 80 }
      { total := 100, covered := 78, percentage := 78 } 1).status = .regressed ∧
    (compareMetric .lines { total := 100, covered := 80, percentage := 80 }
      { total := 100, covered := 78, percentage := 78 } 3).status = .unchanged := by
  have hd : (compareMetric name b c t).delta = c.percentage - b.percentage := rfl
  have hs : (compareMetric name b c t).status =
      (if 0 < c.percentage - b.percentage then ComparisonStatus.improved
       else if c.percentage - b.percentage < -t then ComparisonStatus.regressed
       else ComparisonStatus.unchanged) := rfl
  refine ⟨hd, ?_, ?_, ?_, ?_, ?_⟩
  · rw [hs, hd]
    by_cases p1 : 0 < c.percentage - b.percentage
    · simp [p1]
    · by_cases p2 : c.percentage - b.percentage < -t <;> simp [p1, p2]
  · rw [hs, hd]
    by_cases p1 : 0 < c.percentage - b.percentage
    · have : ¬ c.percentage - b.percentage < -t := by linarith
      simp [p1, this]
    · by_cases p2 : c.percentage - b.percentage < -t <;> simp [p1, p2]
  · rw [hs, hd]
    by_cases p1 : 0 < c.percentage - b.percentage
    · have : ¬ c.percentage - b.percentage < -t := by linarith
      simp [p1, this]
    · by_cases p2 : c.percentage - b.percentage < -t <;> simp [p1, p2]
  · norm_num [compareMetric]
  · norm_num [compareMetric]

/-- Witness for C2 at the concrete 80 versus 78 scenario. -/
theorem compareMetric_status_rule_witness :
    (compareMetric .lines { total := 100, covered := 80, percentage := 80 }
      { total := 100, covered := 78, percentage := 78 } 1).delta = 78 - 80 :=
  (compareMetric_status_rule .lines
    { total := 100, covered := 80, percentage := 80 }
    { total := 100, covered := 78, percentage := 78 } 1
    (by norm_num) (by norm_num)).1

/-- C8: raising the threshold never turns an unchanged metric regressed
and never turns a regressed metric improved. -/
theorem compareMetric_threshold_monotone (name : MetricName) (b c : CoverageMetric)
    (t t' : ℚ) (h : t ≤ t') :
    ((compareMetric name b c t).status = .unchanged →
      (compareMetric name b c t').status ≠ .regressed) ∧
    ((compareMetric name b c t).status = .regressed →
      (compareMetric name b c t').status ≠ .improved) := by
  have e : ∀ u : ℚ, (compareMetric name b c u).status =
      (if 0 < c.percentage - b.percentage then ComparisonStatus.improved
       else if c.percentage - b.percentage < -u then ComparisonStatus.regressed
       else ComparisonStatus.unchanged) := fun u => rfl
  rw [e t, e t']
  by_cases p1 : 0 < c.percentage - b.percentage
  · simp [p1]
  · by_cases p2 : c.percentage - b.percentage < -t'
    · have p3 : c.percentage - b.percentage < -t := lt_of_lt_of_le p2 (by linarith)
      simp [p1, p2, p3]
    · by_cases p3 : c.percentage - b.percentage < -t <;> simp [p1, p2, p3]

/-- Witness for C8 at thresholds 1 and 2 on an unchanged pair. -/
theorem compareMetric_threshold_monotone_witness :
    ((compareMetric .lines { total := 1, covered := 1, percentage := 100 }
      { total := 1, covered := 1, percentage := 100 } 2).status = .regressed) = False :=
  eq_false ((compareMetric_threshold_monotone .lines
    { total := 1, covered := 1, percentage := 100 }
    { total := 1, covered := 1, percentage := 100 } 1 2 (by norm_num)).1
    (by norm_num [compareMetric]))

/-- C7: the Istanbul statements metric takes total from the number of
statementMap entries and covered from the number of s entries with a
positive hit count, and both counts are independent of entry order, the
correlation being by key rather than by position. -/
theorem istanbul_statements_spec (file : IstanbulFileCoverage) :
    (IstanbulParser.calculateStatements file).total = file.statementMap.length ∧
    (IstanbulParser.calculateStatements file).covered =
      (file.s.filter fun kv => decide (0 < kv.2)).length ∧
    (∀ s' map', file.s.Perm s' → file.statementMap.Perm map' →
      IstanbulParser.calculateStatements { file with s := s', statementMap := map' } =
        IstanbulParser.calculateStatements file) := by
  refine ⟨rfl, ?_, ?_⟩
  · show ((file.s.map fun kv => kv.2).countP fun hit => decide (0 < hit)) = _
    rw [List.countP_map, List.countP_eq_length_filter]
    rfl
  · intro s' map' hs hmap
    unfold IstanbulParser.calculateStatements
    have h1 : ((s'.map fun kv => kv.2).countP fun hit => decide (0 < hit)) =
        ((file.s.map fun kv => kv.2).countP fun hit => decide (0 < hit)) :=
      ((hs.map fun kv => kv.2).countP_eq _).symm
    have h2 : map'.length = file.statementMap.length := hmap.length_eq.symm
    rw [show ({ file with s := s', statementMap := map' } : IstanbulFileCoverage).s = s' from rfl,
      show ({ file with s := s', statementMap := map' } : IstanbulFileCoverage).statementMap
        = map' from rfl, h1, h2]

/-- Witness for C7: a record with two statements and reordered maps. -/
theorem istanbul_statements_spec_witness :
    (IstanbulParser.calculateStatements
      { path := "a.ts"
        statementMap := [("0", { startLine := 1, endLine := 1 }), ("1", { startLine := 2, endLine := 2 })]
        fnMap := []
        branchMap := []
        s := [("0", 3), ("1", 0)]
        f := []
        b := [] }).total = 2 :=
  (istanbul_statements_spec
    { path := "a.ts"
      statementMap := [("0", { startLine := 1, endLine := 1 }), ("1", { startLine := 2, endLine := 2 })]
      fnMap := []
      branchMap := []
      s := [("0", 3), ("1", 0)]
      f := []
      b := [] }).1

lemma overallStatus_four (a b c d : MetricComparison) (t : ℚ) :
    (determineOverallStatus [a, b, c, d] t = .regressed ↔
      (a.status = .regressed ∨ b.status = .regressed ∨ c.status = .regressed ∨
        d.status = .regressed)) ∧
    (determineOverallStatus [a, b, c, d] t = .improved ↔
      ((a.status ≠ .regressed ∧ b.status ≠ .regressed ∧ c.status ≠ .regressed ∧
        d.status ≠ .regressed) ∧
       (a.status = .improved ∨ b.status = .improved ∨ c.status = .improved ∨
        d.status = .improved))) ∧
    (determineOverallStatus [a, b, c, d] t = .unchanged ↔
      (a.status = .unchanged ∧ b.status = .unchanged ∧ c.status = .unchanged ∧
        d.status = .unchanged)) := by
  unfold determineOverallStatus
  cases ha : a.status <;> cases hb : b.status <;> cases hc : c.status <;>
    cases hd : d.status <;> simp [ha, hb, hc, hd]

lemma calculateOverallDelta_four (a b c d : MetricComparison) :
    calculateOverallDelta [a, b, c, d] = (a.delta + b.delta + c.delta + d.delta) / 4 := by
  unfold calculateOverallDelta
  norm_num
  ring

/-- C3: the overall status is regressed when some metric comparison is
regressed, improved when none is regressed and some is improved, else
unchanged; the overall delta is the unweighted mean of the four metric
deltas. -/
theorem overall_status_and_delta (current baseline : NormalizedCoverage) (t : ℚ) :
    ((compareCoverage current baseline t).overallStatus = .regressed ↔
      ∃ m ∈ (compareCoverage current baseline t).metrics, m.status = .regressed) ∧
    ((compareCoverage current baseline t).overallStatus = .improved ↔
      ((∀ m ∈ (compareCoverage current baseline t).metrics, m.status ≠ .regressed) ∧
        ∃ m ∈ (compareCoverage current baseline t).metrics, m.status = .improved)) ∧
    ((compareCoverage current baseline t).overallStatus = .unchanged ↔
      ∀ m ∈ (compareCoverage current baseline t).metrics, m.status = .unchanged) ∧
    (compareCoverage current baseline t).overallDelta =
      ((current.summary.statements.percentage - baseline.summary.statements.percentage) +
       (current.summary.branches.percentage - baseline.summary.branches.percentage) +
       (current.summary.functions.percentage - baseline.summary.functions.percentage) +
       (current.summary.lines.percentage - baseline.summary.lines.percentage)) / 4 := by
  obtain ⟨h1, h2, h3⟩ := overallStatus_four
    (compareMetric .statements baseline.summary.statements current.summary.statements t)
    (compareMetric .branches baseline.summary.branches current.summary.branches t)
    (compareMetric .functions baseline.summary.functions current.summary.functions t)
    (compareMetric .lines baseline.summary.lines current.summary.lines t) t
  have hM : (compareCoverage current baseline t).metrics =
      [compareMetric .statements baseline.summary.statements current.summary.statements t,
       compareMetric .branches baseline.summary.branches current.summary.branches t,
       compareMetric .functions baseline.summary.functions current.summary.functions t,
       compareMetric .lines baseline.summary.lines current.summary.lines t] := rfl
  have hOS : (compareCoverage current baseline t).overallStatus =
      determineOverallStatus
        [compareMetric .statements baseline.summary.statements current.summary.statements t,
         compareMetric .branches baseline.summary.branches current.summary.branches t,
         compareMetric .functions baseline.summary.functions current.summary.functions t,
         compareMetric .lines baseline.summary.lines current.summary.lines t] t := rfl
  have hOD : (compareCoverage current baseline t).overallDelta =
      calculateOverallDelta
        [compareMetric .statements baseline.summary.statements current.summary.statements t,
         compareMetric .branches baseline.summary.branches current.summary.branches t,
         compareMetric .functions baseline.summary.functions current.summary.functions t,
         compareMetric .lines baseline.summary.lines current.summary.lines t] := rfl
  refine ⟨?_, ?_, ?_, ?_⟩
  · rw [hOS, h1, hM]
    simp only [List.mem_cons, List.not_mem_nil, or_false]
    constructor
    · rintro (h | h | h | h)
      · exact ⟨_, Or.inl rfl, h⟩
      · exact ⟨_, Or.inr (Or.inl rfl), h⟩
      · exact ⟨_, Or.inr (Or.inr (Or.inl rfl)), h⟩
      · exact ⟨_, Or.inr (Or.inr (Or.inr rfl)), h⟩
    · rintro ⟨m, hm, hs⟩
      rcases hm with rfl | rfl | rfl | rfl
      · exact Or.inl hs
      · exact Or.inr (Or.inl hs)
      · exact Or.inr (Or.inr (Or.inl hs))
      · exact Or.inr (Or.inr (Or.inr hs))
  · rw [hOS, h2, hM]
    simp only [List.mem_cons, List.not_mem_nil, or_false]
    constructor
    · rintro ⟨⟨n1, n2, n3, n4⟩, h⟩
      refine ⟨?_, ?_⟩
      · rintro m (rfl | rfl | rfl | rfl)
        · exact n1
        · exact n2
        · exact n3
        · exact n4
      · rcases h with h | h | h | h
        · exact ⟨_, Or.inl rfl, h⟩
        · exact ⟨_, Or.inr (Or.inl rfl), h⟩
        · exact ⟨_, Or.inr (Or.inr (Or.inl rfl)), h⟩
        · exact ⟨_, Or.inr (Or.inr (Or.inr rfl)), h⟩
    · rintro ⟨hall, m, hm, hs⟩
      refine ⟨⟨hall _ (Or.inl rfl), hall _ (Or.inr (Or.inl rfl)),
        hall _ (Or.inr (Or.inr (Or.inl rfl))), hall _ (Or.inr (Or.inr (Or.inr rfl)))⟩, ?_⟩
      rcases hm with rfl | rfl | rfl | rfl
      · exact Or.inl hs
      · exact Or.inr (Or.inl hs)
      · exact Or.inr (Or.inr (Or.inl hs))
      · exact Or.inr (Or.inr (Or.inr hs))
  · rw [hOS, h3, hM]
    simp only [List.mem_cons, List.not_mem_nil, or_false]
    constructor
    · rintro ⟨u1, u2, u3, u4⟩ m hm
      rcases hm with rfl | rfl | rfl | rfl
      · exact u1
      · exact u2
      · exact u3
      · exact u4
    · intro hall
      exact ⟨hall _ (Or.inl rfl), hall _ (Or.inr (Or.inl rfl)),
        hall _ (Or.inr (Or.inr (Or.inl rfl))), hall _ (Or.inr (Or.inr (Or.inr rfl)))⟩
  · rw [hOD, calculateOverallDelta_four]
    rfl

/-- A fully covered single-metric coverage value used by witnesses. -/
def exNormalized : NormalizedCoverage :=
  { format := .lcov
    summary :=
      { statements := { total := 1, covered := 1, percentage := 100 }
        branches := { total := 1, covered := 1, percentage := 100 }
        functions := { total := 1, covered := 1, percentage := 100 }
        lines := { total := 1, covered := 1, percentage := 100 } }
    files := [] }

/-- Witness for C3: comparing a report with itself gives the mean of
four zero deltas. -/
theorem overall_status_and_delta_witness :
    (compareCoverage exNormalized exNormalized 0).overallDelta =
      (((100 : ℚ) - 100) + (100 - 100) + (100 - 100) + (100 - 100)) / 4 :=
  (overall_status_and_delta exNormalized exNormalized 0).2.2.2

lemma summaryOk_lcovSummary (data : List LcovFile) :
    SummaryOk (LcovParser.calculateSummary data) :=
  ⟨metricOk_calculateMetric _ _, metricOk_calculateMetric _ _,
   metricOk_calculateMetric _ _, metricOk_calculateMetric _ _⟩

lemma coverageOk_lcov (data : List LcovFile) (nc : NormalizedCoverage)
    (h : LcovParser.parse data = .ok nc) : CoverageOk nc := by
  unfold LcovParser.parse at h
  split at h
  · exact Except.noConfusion h
  · injection h with h
    subst h
    refine ⟨summaryOk_lcovSummary data, ?_⟩
    intro f hf
    rw [List.mem_map] at hf
    obtain ⟨file, _, rfl⟩ := hf
    exact ⟨metricOk_calculateMetric _ _, metricOk_calculateMetric _ _,
      metricOk_calculateMetric _ _, metricOk_calculateMetric _ _⟩

lemma fileOk_istanbulBuildFile (k : String) (v : IstanbulFileCoverage) :
    FileOk (IstanbulParser.buildFile k v) :=
  ⟨metricOk_calculateMetric _ _, metricOk_calculateMetric _ _,
   metricOk_calculateMetric _ _, metricOk_calculateMetric _ _⟩

lemma coverageOk_istanbul (data : List (String × IstanbulFileCoverage))
    (nc : NormalizedCoverage) (h : IstanbulParser.parse data = .ok nc) : CoverageOk nc := by
  unfold IstanbulParser.parse at h
  split at h
  · exact Except.noConfusion h
  · injection h with h
    subst h
    refine ⟨summaryOk_aggregateSummary _, ?_⟩
    intro f hf
    rw [List.mem_map] at hf
    obtain ⟨kv, _, rfl⟩ := hf
    exact fileOk_istanbulBuildFile kv.1 kv.2

lemma summaryOk_cloverMetrics (m : CloverMetrics) :
    SummaryOk (CloverParser.parseMetrics m) :=
  ⟨metricOk_calculateMetric _ _, metricOk_calculateMetric _ _,
   metricOk_calculateMetric _ _, metricOk_calculateMetric _ _⟩

lemma fileOk_cloverParseFile (file : CloverFile) : FileOk (CloverParser.parseFile file) := by
  unfold CloverParser.parseFile
  cases file.metrics
  · exact ⟨metricOk_calculateMetric _ _, metricOk_calculateMetric _ _,
      metricOk_calculateMetric _ _, metricOk_calculateMetric _ _⟩
  · rename_i m
    obtain ⟨h1, h2, h3, h4⟩ := summaryOk_cloverMetrics m
    exact ⟨h1, h2, h3, h4⟩

lemma coverageOk_clover (data : CloverXml) (nc : NormalizedCoverage)
    (h : CloverParser.parse data = .ok nc) : CoverageOk nc := by
  unfold CloverParser.parse at h
  split at h
  · exact Except.noConfusion h
  · rename_i project heq
    injection h with h
    subst h
    constructor
    · show SummaryOk (match project.metrics with
        | some m => CloverParser.parseMetrics m
        | none => aggregateSummary _)
      cases project.metrics
      · exact summaryOk_aggregateSummary _
      · exact summaryOk_cloverMetrics _
    · intro f hf
      rw [List.mem_append] at hf
      rcases hf with hf | hf
      · rw [List.mem_map] at hf
        obtain ⟨file, _, rfl⟩ := hf
        exact fileOk_cloverParseFile file
      · rw [List.mem_flatMap] at hf
        obtain ⟨pkg, _, hf⟩ := hf
        rw [List.mem_map] at hf
        obtain ⟨file, _, rfl⟩ := hf
        exact fileOk_cloverParseFile file

lemma metricOk_jacocoPick (counters : List JacocoCounter) (t : JacocoCounterType) :
    MetricOk (match JacocoParser.findCounter counters t with
      | some c => JacocoParser.counterMetric c
      | none => { total := 0, covered := 0, percentage := 100 }) := by
  cases JacocoParser.findCounter counters t
  · exact metricOk_default
  · exact metricOk_calculateMetric _ _

lemma summaryOk_jacocoCounters (counters : List JacocoCounter) :
    SummaryOk (JacocoParser.parseCounters counters) :=
  ⟨metricOk_jacocoPick counters .INSTRUCTION, metricOk_jacocoPick counters .BRANCH,
   metricOk_jacocoPick counters .METHOD, metricOk_jacocoPick counters .LINE⟩

lemma fileOk_jacocoSourceFile (srcFile : JacocoSourceFile) (filePath : String) :
    FileOk (JacocoParser.parseSourceFile srcFile filePath) := by
  unfold JacocoParser.parseSourceFile
  cases srcFile.counter
  · exact ⟨metricOk_calculateMetric _ _, metricOk_calculateMetric _ _,
      metricOk_default, metricOk_calculateMetric _ _⟩
  · rename_i counters
    obtain ⟨h1, h2, h3, h4⟩ := summaryOk_jacocoCounters counters
    exact ⟨h1, h2, h3, h4⟩

lemma coverageOk_jacoco (data : Option JacocoReport) (nc : NormalizedCoverage)
    (h : JacocoParser.parse data = .ok nc) : CoverageOk nc := by
  unfold JacocoParser.parse at h
  split at h
  · exact Except.noConfusion h
  · rename_i report
    injection h with h
    subst h
    constructor
    · show SummaryOk (match report.counter with
        | some counters => JacocoParser.parseCounters counters
        | none => aggregateSummary _)
      cases report.counter
      · exact summaryOk_aggregateSummary _
      · exact summaryOk_jacocoCounters _
    · intro f hf
      rw [List.mem_flatMap] at hf
      obtain ⟨pkg, _, hf⟩ := hf
      rw [List.mem_map] at hf
      obtain ⟨srcFile, _, rfl⟩ := hf
      exact fileOk_jacocoSourceFile _ _

lemma fileOk_coberturaClass (cls : CoberturaClass) : FileOk (CoberturaParser.parseClass cls) :=
  ⟨metricOk_calculateMetric _ _, metricOk_calculateMetric _ _,
   metricOk_calculateMetric _ _, metricOk_calculateMetric _ _⟩

lemma metricOk_coberturaFunctions (cov : CoberturaCoverage) (files : List FileCoverage) :
    MetricOk (CoberturaParser.calculateSummary cov files).functions := by
  simp only [CoberturaParser.calculateSummary]
  split
  · exact metricOk_aggregateMetric files .functions
  · exact (summaryOk_aggregateSummary files).2.2.1

lemma summaryOk_cobertura_of_linesValid_zero (cov : CoberturaCoverage)
    (files : List FileCoverage) (h : cov.linesValid.getD 0 = 0) :
    SummaryOk (CoberturaParser.calculateSummary cov files) := by
  simp only [CoberturaParser.calculateSummary]
  rw [if_neg (by omega)]
  exact summaryOk_aggregateSummary files

/-- C1 amended: every metric constructed by the LCOV, Istanbul, Clover
and JaCoCo parsers satisfies the percentage invariant, as does every
per-file metric and the functions summary metric of the Cobertura
parser, and its whole summary whenever the root lines-valid attribute is
absent or parses to zero. The excluded case, a Cobertura root with a
positive lines-valid, takes its statements, branches and lines summary
percentages from the line-rate and branch-rate attributes and satisfies
the invariant only on inputs whose rates agree with the counts. -/
theorem parser_metric_invariant_amended :
    (∀ data nc, LcovParser.parse data = .ok nc → CoverageOk nc) ∧
    (∀ data nc, IstanbulParser.parse data = .ok nc → CoverageOk nc) ∧
    (∀ data nc, CloverParser.parse data = .ok nc → CoverageOk nc) ∧
    (∀ data nc, JacocoParser.parse data = .ok nc → CoverageOk nc) ∧
    (∀ cov nc, CoberturaParser.parse (some cov) = .ok nc →
      ((∀ f ∈ nc.files, FileOk f) ∧ MetricOk nc.summary.functions ∧
        (cov.linesValid.getD 0 = 0 → SummaryOk nc.summary))) := by
  refine ⟨coverageOk_lcov, coverageOk_istanbul, coverageOk_clover, coverageOk_jacoco, ?_⟩
  intro cov nc h
  unfold CoberturaParser.parse at h
  injection h with h
  subst h
  refine ⟨?_, metricOk_coberturaFunctions _ _, fun hz => summaryOk_cobertura_of_linesValid_zero _ _ hz⟩
  intro f hf
  rw [List.mem_flatMap] at hf
  obtain ⟨pkg, _, hf⟩ := hf
  rw [List.mem_map] at hf
  obtain ⟨cls, _, rfl⟩ := hf
  exact fileOk_coberturaClass cls

/-- A Cobertura root whose line-rate attribute disagrees with its count
attributes. -/
def exCoberturaRoot : CoberturaCoverage :=
  { lineRate := some (9 / 10)
    branchRate := none
    linesCovered := some 1
    linesValid := some 2
    branchesCovered := none
    branchesValid := none
    packages := [] }

/-- The parse result of that root. -/
def exCoberturaNc : NormalizedCoverage :=
  { format := .cobertura
    summary :=
      { statements := { total := 2, covered := 1, percentage := 90 }
        branches := { total := 0, covered := 0, percentage := 0 }
        functions := { total := 0, covered := 0, percentage := 100 }
        lines := { total := 2, covered := 1, percentage := 90 } }
    files := [] }

/-- C1 counterexample: the Cobertura parser, on a root carrying
lines-valid 2, lines-covered 1 and line-rate 0.9, produces a summary
lines metric with total 2, covered 1 and percentage 90, while the
claimed invariant demands 1 / 2 * 100 = 50; the branches metric also has
total 0 with percentage 0 instead of 100. -/
theorem parser_metric_invariant_counterexample :
    CoberturaParser.parse (some exCoberturaRoot) = .ok exCoberturaNc ∧
    0 < exCoberturaNc.summary.lines.total ∧
    exCoberturaNc.summary.lines.percentage ≠
      (exCoberturaNc.summary.lines.covered : ℚ) / exCoberturaNc.summary.lines.total * 100 ∧
    exCoberturaNc.summary.branches.total = 0 ∧
    exCoberturaNc.summary.branches.percentage ≠ 100 := by
  refine ⟨?_, by norm_num [exCoberturaNc], by norm_num [exCoberturaNc],
    by norm_num [exCoberturaNc], by norm_num [exCoberturaNc]⟩
  simp only [CoberturaParser.parse, CoberturaParser.calculateSummary, exCoberturaRoot,
    exCoberturaNc, aggregateMetric, aggregateSummary, calculateMetric, FileCoverage.metric,
    Option.getD_some, Option.getD_none, List.flatMap_nil, List.map_nil, List.sum_nil]
  norm_num

/-- A one-file LCOV record list. -/
def exLcovData : List LcovFile :=
  [{ file := "a.ts"
     lines := { found := 2, hit := 1 }
     functions := { found := 0, hit := 0 }
     branches := { found := 0, hit := 0 } }]

/-- Witness for the amended C1 at a concrete LCOV input. -/
theorem parser_metric_invariant_amended_witness :
    CoverageOk
      { format := CoverageFormat.lcov
        summary := LcovParser.calculateSummary exLcovData
        files :=
          [{ path := "a.ts"
             statements := calculateMetric 1 2
             branches := calculateMetric 0 0
             functions := calculateMetric 0 0
             lines := calculateMetric 1 2 }] } :=
  parser_metric_invariant_amended.1 exLcovData _ rfl

lemma cobertura_calculateSummary_pos (cov : CoberturaCoverage) (files : List FileCoverage)
    (hpos : 0 < cov.linesValid.getD 0) :
    CoberturaParser.calculateSummary cov files =
      { statements :=
          { total := cov.linesValid.getD 0
            covered := cov.linesCovered.getD 0
            percentage := cov.lineRate.getD 0 * 100 }
        branches :=
          { total := cov.branchesValid.getD 0
            covered := cov.branchesCovered.getD 0
            percentage := cov.branchRate.getD 0 * 100 }
        functions := aggregateMetric files .functions
        lines :=
          { total := cov.linesValid.getD 0
            covered := cov.linesCovered.getD 0
            percentage := cov.lineRate.getD 0 * 100 } } := by
  simp only [CoberturaParser.calculateSummary]
  rw [if_pos hpos]

lemma cobertura_calculateSummary_zero (cov : CoberturaCoverage) (files : List FileCoverage)
    (hz : cov.linesValid.getD 0 = 0) :
    CoberturaParser.calculateSummary cov files = aggregateSummary files := by
  simp only [CoberturaParser.calculateSummary]
  rw [if_neg (by omega)]

/-- The root element of the spec scenario: lines-valid 100, lines-covered
75, line-rate 0.75, with one class whose own line data would aggregate
differently. -/
def exCobertura75 : CoberturaCoverage :=
  { lineRate := some (75 / 100)
    branchRate := some (1 / 2)
    linesCovered := some 75
    linesValid := some 100
    branchesCovered := some 1
    branchesValid := some 2
    packages :=
      [{ classes :=
          [{ filename := "f.py"
             methods := []
             lines := [{ hits := some 0, branch := false, conditionCoverage := none }] }] }] }

/-- C6 amended: the root attributes feed the summary exactly when the
parsed lines-valid value is positive, absent attributes parsing to zero;
then statements, branches and lines take total and covered from the root
count attributes and percentage from the rate attributes times 100,
while functions is aggregated from the parsed classes. With lines-valid
zero or absent, the whole summary is aggregated from the parsed classes.
The scenario with lines-valid 100, lines-covered 75 and line-rate 0.75
yields a summary lines percentage of exactly 75, sourced from the root. -/
theorem cobertura_summary_root_amended (cov : CoberturaCoverage) (nc : NormalizedCoverage)
    (h : CoberturaParser.parse (some cov) = .ok nc) :
    (0 < cov.linesValid.getD 0 →
      nc.summary.statements =
        { total := cov.linesValid.getD 0, covered := cov.linesCovered.getD 0,
          percentage := cov.lineRate.getD 0 * 100 } ∧
      nc.summary.lines =
        { total := cov.linesValid.getD 0, covered := cov.linesCovered.getD 0,
          percentage := cov.lineRate.getD 0 * 100 } ∧
      nc.summary.branches =
        { total := cov.branchesValid.getD 0, covered := cov.branchesCovered.getD 0,
          percentage := cov.branchRate.getD 0 * 100 } ∧
      nc.summary.functions = aggregateMetric nc.files .functions) ∧
    (cov.linesValid.getD 0 = 0 → nc.summary = aggregateSummary nc.files) ∧
    (CoberturaParser.parse (some exCobertura75)).toOption.map (fun v => v.summary.lines) =
      some { total := 100, covered := 75, percentage := 75 } := by
  have scenario : (CoberturaParser.parse (some exCobertura75)).toOption.map
      (fun v => v.summary.lines) = some { total := 100, covered := 75, percentage := 75 } := by
    have hp : 0 < exCobertura75.linesValid.getD 0 := by decide
    rw [show CoberturaParser.parse (some exCobertura75) =
      .ok { format := .cobertura
            summary := CoberturaParser.calculateSummary exCobertura75
              (exCobertura75.packages.flatMap fun pkg =>
                pkg.classes.map CoberturaParser.parseClass)
            files := exCobertura75.packages.flatMap fun pkg =>
              pkg.classes.map CoberturaParser.parseClass } from rfl]
    rw [cobertura_calculateSummary_pos _ _ hp]
    show some _ = some _
    norm_num [exCobertura75]
  unfold CoberturaParser.parse at h
  injection h with h
  subst h
  have e := cobertura_calculateSummary_pos cov
    (cov.packages.flatMap fun pkg => pkg.classes.map CoberturaParser.parseClass)
  have ez := cobertura_calculateSummary_zero cov
    (cov.packages.flatMap fun pkg => pkg.classes.map CoberturaParser.parseClass)
  refine ⟨fun hpos => ?_, fun hz => ?_, scenario⟩
  · refine ⟨?_, ?_, ?_, ?_⟩ <;> simp only [e hpos]
  · simp only [ez hz]

/-- A Cobertura root carrying all four count attributes with lines-valid
zero, plus one class with one covered and one uncovered line. -/
def exCoberturaZeroValid : CoberturaCoverage :=
  { lineRate := some 1
    branchRate := some 1
    linesCovered := some 0
    linesValid := some 0
    branchesCovered := some 0
    branchesValid := some 0
    packages :=
      [{ classes :=
          [{ filename := "f.py"
             methods := []
             lines :=
               [{ hits := some 1, branch := false, conditionCoverage := none },
                { hits := some 0, branch := false, conditionCoverage := none }] }] }] }

/-- C6 counterexample: a root that carries the four count attributes,
with lines-valid zero, is aggregated from classes, so the summary lines
metric has total 2 and covered 1, not the root-sourced total 0 and
covered 0 the claim requires. -/
theorem cobertura_summary_root_counterexample :
    (CoberturaParser.parse (some exCoberturaZeroValid)).toOption.map (fun v => v.summary.lines) =
      some { total := 2, covered := 1, percentage := 50 } ∧
    exCoberturaZeroValid.linesValid = some 0 ∧
    exCoberturaZeroValid.linesCovered = some 0 ∧
    exCoberturaZeroValid.branchesValid = some 0 ∧
    exCoberturaZeroValid.branchesCovered = some 0 ∧
    ({ total := 2, covered := 1, percentage := 50 } : CoverageMetric) ≠
      { total := exCoberturaZeroValid.linesValid.getD 0,
        covered := exCoberturaZeroValid.linesCovered.getD 0,
        percentage := exCoberturaZeroValid.lineRate.getD 0 * 100 } := by
  have hz : exCoberturaZeroValid.linesValid.getD 0 = 0 := by decide
  refine ⟨?_, rfl, rfl, rfl, rfl, ?_⟩
  · rw [show CoberturaParser.parse (some exCoberturaZeroValid) =
      .ok { format := .cobertura
            summary := CoberturaParser.calculateSummary exCoberturaZeroValid
              (exCoberturaZeroValid.packages.flatMap fun pkg =>
                pkg.classes.map CoberturaParser.parseClass)
            files := exCoberturaZeroValid.packages.flatMap fun pkg =>
              pkg.classes.map CoberturaParser.parseClass } from rfl]
    rw [cobertura_calculateSummary_zero _ _ hz]
    show some _ = some _
    norm_num [exCoberturaZeroValid, aggregateSummary, aggregateMetric, calculateMetric,
      CoberturaParser.parseClass, FileCoverage.metric]
  · intro h
    have := congrArg CoverageMetric.total h
    simp [exCoberturaZeroValid] at this

/-- Witness for the amended C6 at the spec scenario root. -/
theorem cobertura_summary_root_amended_witness :
    (CoberturaParser.parse (some exCobertura75)).toOption.map (fun v => v.summary.lines) =
      some { total := 100, covered := 75, percentage := 75 } :=
  (cobertura_summary_root_amended exCobertura75 _ rfl).2.2

lemma mem_dedupFirst (a : String) : ∀ l : List String, a ∈ dedupFirst l ↔ a ∈ l := by
  intro l
  induction l with
  | nil => simp [dedupFirst]
  | cons p rest ih =>
    simp only [dedupFirst, List.mem_cons, List.mem_filter, ih, bne_iff_ne, ne_eq,
      decide_eq_true_eq]
    by_cases h : a = p <;> simp [h]

lemma lookupFile_path {files : List FileCoverage} {p : String} {f : FileCoverage}
    (h : lookupFile files p = some f) : f.path = p := by
  have := List.find?_some h
  exact eq_of_beq this

lemma lookupFile_mem {files : List FileCoverage} {p : String} {f : FileCoverage}
    (h : lookupFile files p = some f) : f ∈ files :=
  List.mem_reverse.mp (List.mem_of_find?_eq_some h)

lemma compareFilesEntry_eq_some (current baseline : NormalizedCoverage) (t : ℚ) (p : String)
    (fc : FileComparison) :
    compareFilesEntry current baseline t p = some fc ↔
    ∃ bf cf, lookupFile baseline.files p = some bf ∧ lookupFile current.files p = some cf ∧
      (0.1 : ℚ) < |cf.lines.percentage - bf.lines.percentage| ∧
      fc = { path := p
             linesDelta := cf.lines.percentage - bf.lines.percentage
             status :=
               if 0 < cf.lines.percentage - bf.lines.percentage then .improved
               else if cf.lines.percentage - bf.lines.percentage < -t then .regressed
               else .unchanged } := by
  unfold compareFilesEntry
  cases hb : lookupFile baseline.files p with
  | none => simp
  | some bf =>
    cases hc : lookupFile current.files p with
    | none => simp
    | some cf =>
      simp only [Option.some.injEq]
      constructor
      · intro h
        by_cases hgate : (0.1 : ℚ) < |cf.lines.percentage - bf.lines.percentage|
        · rw [if_pos hgate] at h
          injection h with h
          exact ⟨bf, cf, rfl, rfl, hgate, h.symm⟩
        · rw [if_neg hgate] at h
          exact Option.noConfusion h
      · rintro ⟨bf', cf', hb', hc', hgate, rfl⟩
        subst hb'
        subst hc'
        rw [if_pos hgate]

/-- A file at 80 percent line coverage. -/
def exFile80 : FileCoverage :=
  { path := "a.ts"
    statements := { total := 100, covered := 80, percentage := 80 }
    branches := { total := 100, covered := 80, percentage := 80 }
    functions := { total := 100, covered := 80, percentage := 80 }
    lines := { total := 100, covered := 80, percentage := 80 } }

/-- The same file at 80.1 percent line coverage. -/
def exFile801 : FileCoverage :=
  { path := "a.ts"
    statements := { total := 1000, covered := 801, percentage := 80.1 }
    branches := { total := 1000, covered := 801, percentage := 80.1 }
    functions := { total := 1000, covered := 801, percentage := 80.1 }
    lines := { total := 1000, covered := 801, percentage := 80.1 } }

/-- The same file at 80.11 percent line coverage. -/
def exFile8011 : FileCoverage :=
  { path := "a.ts"
    statements := { total := 10000, covered := 8011, percentage := 80.11 }
    branches := { total := 10000, covered := 8011, percentage := 80.11 }
    functions := { total := 10000, covered := 8011, percentage := 80.11 }
    lines := { total := 10000, covered := 8011, percentage := 80.11 } }

/-- Baseline coverage holding the 80 percent file. -/
def exBaseline01 : NormalizedCoverage :=
  { format := .lcov, summary := exNormalized.summary, files := [exFile80] }

/-- Current coverage holding the 80.1 percent file. -/
def exCurrent01 : NormalizedCoverage :=
  { format := .lcov, summary := exNormalized.summary, files := [exFile801] }

/-- Current coverage holding the 80.11 percent file. -/
def exCurrent011 : NormalizedCoverage :=
  { format := .lcov, summary := exNormalized.summary, files := [exFile8011] }

/-- C4: the file comparison list holds exactly the paths present in both
file lists whose lines delta strictly exceeds 0.1 in absolute value,
each entry carrying that delta, the list is sorted ascending by delta,
and the concrete pair differing by exactly 0.1 is excluded while 0.11 is
included. -/
theorem compareFiles_spec (current baseline : NormalizedCoverage) (t : ℚ) :
    (∀ p : String,
      (∃ fc ∈ compareFiles current baseline t, fc.path = p) ↔
      (∃ bf cf, lookupFile baseline.files p = some bf ∧
        lookupFile current.files p = some cf ∧
        (0.1 : ℚ) < |cf.lines.percentage - bf.lines.percentage|)) ∧
    (∀ fc ∈ compareFiles current baseline t,
      ∃ bf cf, lookupFile baseline.files fc.path = some bf ∧
        lookupFile current.files fc.path = some cf ∧
        fc.linesDelta = cf.lines.percentage - bf.lines.percentage ∧
        (0.1 : ℚ) < |fc.linesDelta|) ∧
    List.Pairwise FileComparison.deltaLE (compareFiles current baseline t) ∧
    compareFiles exCurrent01 exBaseline01 1 = [] ∧
    (compareFiles exCurrent011 exBaseline01 1).map (fun fc => fc.path) = ["a.ts"] := by
  have hperm : ∀ x, x ∈ compareFiles current baseline t ↔
      x ∈ (dedupFirst ((baseline.files.map fun f => f.path) ++
        (current.files.map fun f => f.path))).filterMap
        (compareFilesEntry current baseline t) := fun x =>
    (List.perm_insertionSort FileComparison.deltaLE _).mem_iff
  refine ⟨?_, ?_, ?_, ?_, ?_⟩
  · intro p
    constructor
    · rintro ⟨fc, hmem, rfl⟩
      rw [hperm, List.mem_filterMap] at hmem
      obtain ⟨p', _, hent⟩ := hmem
      rw [compareFilesEntry_eq_some] at hent
      obtain ⟨bf, cf, hb, hc, hgate, rfl⟩ := hent
      exact ⟨bf, cf, hb, hc, hgate⟩
    · rintro ⟨bf, cf, hb, hc, hgate⟩
      refine ⟨{ path := p
                linesDelta := cf.lines.percentage - bf.lines.percentage
                status :=
                  if 0 < cf.lines.percentage - bf.lines.percentage then .improved
                  else if cf.lines.percentage - bf.lines.percentage < -t then .regressed
                  else .unchanged }, ?_, rfl⟩
      rw [hperm, List.mem_filterMap]
      refine ⟨p, ?_, (compareFilesEntry_eq_some current baseline t p _).mpr
        ⟨bf, cf, hb, hc, hgate, rfl⟩⟩
      rw [mem_dedupFirst, List.mem_append]
      left
      rw [List.mem_map]
      exact ⟨bf, lookupFile_mem hb, lookupFile_path hb⟩
  · intro fc hmem
    rw [hperm, List.mem_filterMap] at hmem
    obtain ⟨p', _, hent⟩ := hmem
    rw [compareFilesEntry_eq_some] at hent
    obtain ⟨bf, cf, hb, hc, hgate, rfl⟩ := hent
    exact ⟨bf, cf, hb, hc, rfl, hgate⟩
  · exact List.sorted_insertionSort FileComparison.deltaLE _
  · have hdelta : exFile801.lines.percentage - exFile80.lines.percentage = 0.1 := by
      norm_num [exFile801, exFile80]
    have hno : ¬ ((0.1 : ℚ) < |exFile801.lines.percentage - exFile80.lines.percentage|) := by
      rw [hdelta, abs_of_pos (by norm_num)]
      exact lt_irrefl _
    have hentry : compareFilesEntry exCurrent01 exBaseline01 1 "a.ts" = none := by
      have hb : lookupFile exBaseline01.files "a.ts" = some exFile80 := rfl
      have hc : lookupFile exCurrent01.files "a.ts" = some exFile801 := rfl
      unfold compareFilesEntry
      rw [hb, hc]
      dsimp only
      exact if_neg hno
    have hstep : compareFiles exCurrent01 exBaseline01 1 =
        (List.filterMap (compareFilesEntry exCurrent01 exBaseline01 1) ["a.ts"]).insertionSort
          FileComparison.deltaLE := rfl
    rw [hstep, List.filterMap_cons_none hentry]
    rfl
  · have h1 : (0.1 : ℚ) < |exFile8011.lines.percentage - exFile80.lines.percentage| := by
      have : exFile8011.lines.percentage - exFile80.lines.percentage = 0.11 := by
        norm_num [exFile8011, exFile80]
      rw [this, abs_of_pos (by norm_num)]
      norm_num
    have h2 : 0 < exFile8011.lines.percentage - exFile80.lines.percentage := by
      norm_num [exFile8011, exFile80]
    have hentry : compareFilesEntry exCurrent011 exBaseline01 1 "a.ts" =
        some { path := "a.ts"
               linesDelta := exFile8011.lines.percentage - exFile80.lines.percentage
               status := .improved } := by
      have hb : lookupFile exBaseline01.files "a.ts" = some exFile80 := rfl
      have hc : lookupFile exCurrent011.files "a.ts" = some exFile8011 := rfl
      unfold compareFilesEntry
      rw [hb, hc]
      dsimp only
      rw [if_pos h1, if_pos h2]
    have hstep : compareFiles exCurrent011 exBaseline01 1 =
        (List.filterMap (compareFilesEntry exCurrent011 exBaseline01 1) ["a.ts"]).insertionSort
          FileComparison.deltaLE := rfl
    rw [hstep, List.filterMap_cons_some hentry]
    rfl

/-- Witness for C4: the included 0.11 pair produces an entry at the
shared path. -/
theorem compareFiles_spec_witness :
    (compareFiles exCurrent011 exBaseline01 1).map (fun fc => fc.path) = ["a.ts"] :=
  (compareFiles_spec exCurrent011 exBaseline01 1).2.2.2.2

/-- C5: detection is a strict-priority first-match chain: the LCOV
extension rule, then the Istanbul JSON probe behind the .json extension
with failures falling through, then behind the XML gate the Cobertura,
Clover and JaCoCo content tests in order, then the LCOV marker rule, and
the UnrecognizedFormat failure happens exactly when no rule matches. -/
theorem detectFormat_priority (i : DetectInput) :
    (lcovExtRule i = true → detectFormat i = .ok .lcov) ∧
    (lcovExtRule i = false → istanbulJsonRule i = true → detectFormat i = .ok .istanbul) ∧
    (lcovExtRule i = false → istanbulJsonRule i = false → xmlLikeRule i = true →
      coberturaContentRule i = true → detectFormat i = .ok .cobertura) ∧
    (lcovExtRule i = false → istanbulJsonRule i = false → xmlLikeRule i = true →
      coberturaContentRule i = false → cloverContentRule i = true →
      detectFormat i = .ok .clover) ∧
    (lcovExtRule i = false → istanbulJsonRule i = false → xmlLikeRule i = true →
      coberturaContentRule i = false → cloverContentRule i = false →
      jacocoContentRule i = true → detectFormat i = .ok .jacoco) ∧
    (lcovExtRule i = false → istanbulJsonRule i = false →
      (xmlLikeRule i = false ∨ (coberturaContentRule i = false ∧
        cloverContentRule i = false ∧ jacocoContentRule i = false)) →
      lcovMarkersRule i = true → detectFormat i = .ok .lcov) ∧
    (detectFormat i = .error .unrecognizedFormat ↔
      (lcovExtRule i = false ∧ istanbulJsonRule i = false ∧
        (xmlLikeRule i = false ∨ (coberturaContentRule i = false ∧
          cloverContentRule i = false ∧ jacocoContentRule i = false)) ∧
        lcovMarkersRule i = false)) := by
  unfold detectFormat
  cases h1 : lcovExtRule i <;> cases h2 : istanbulJsonRule i <;>
    cases h3 : xmlLikeRule i <;> cases h4 : coberturaContentRule i <;>
    cases h5 : cloverContentRule i <;> cases h6 : jacocoContentRule i <;>
    cases h7 : lcovMarkersRule i <;>
    simp [h1, h2, h3, h4, h5, h6, h7]

/-- Witness for C5: plain text with no matching rule fails with
UnrecognizedFormat. -/
theorem detectFormat_priority_witness :
    detectFormat { content := "hello", filename := "a.txt", json := none } =
      .error .unrecognizedFormat :=
  (detectFormat_priority
    { content := "hello", filename := "a.txt", json := none }).2.2.2.2.2.2.mpr
    ⟨rfl, rfl, Or.inl rfl, rfl⟩
